import Mathlib

/-!
Verification development for the `lazy-gpt` repository (`gpt.py`).

The file embeds the program shallowly:
* Python `float` values arising in the cost computation are represented
  exactly as dyadic rationals `m * 2^e` (IEEE binary64, round to nearest,
  ties to even); every arithmetic operation of the source performs exactly
  one correct rounding, as CPython does for `/`, `*` and `+` on doubles in
  the normal range.
* The `LazyGPT` class becomes a `Session` record; each method becomes a
  function from the old state (plus arguments) to the new state and a
  result.  A raised Python exception becomes an `Except.error`, paired
  with the state the object holds at raise time (Python exceptions do not
  roll back mutations).
* The remote call `openai.ChatCompletion.create` is an opaque external
  collaborator: `response` takes it as a function argument `ext` from the
  outbound message list to an optional API response.
-/

set_option maxRecDepth 100000

/-- A nonnegative IEEE binary64 value represented exactly: the value is
`m * 2^e`, with `m = 0` or `2^52 ≤ m < 2^53`. -/
structure Dbl where
  m : ℕ
  e : ℤ
  deriving DecidableEq

/-- Round `n / d` to the nearest integer, ties to even (requires `d > 0`). -/
def rne (n d : ℕ) : ℕ :=
  let q := n / d
  let r := n % d
  if 2 * r < d then q
  else if d < 2 * r then q + 1
  else if q % 2 = 0 then q else q + 1

/-- Scale the exact rational `(n/d) * 2^e` (given as the triple `(n, d, e)`)
until `2^52 ≤ n/d < 2^53`, preserving the represented value. -/
def scale52 : ℕ → ℕ → ℕ → ℤ → ℕ × ℕ × ℤ
  | 0, n, d, e => (n, d, e)
  | fuel+1, n, d, e =>
    if n < 2 ^ 52 * d then scale52 fuel (2 * n) d (e - 1)
    else if 2 ^ 53 * d ≤ n then scale52 fuel n (2 * d) (e + 1)
    else (n, d, e)

/-- Round the exact nonnegative rational `(n/d) * 2^e` to the nearest
binary64 value (ties to even).  Faithful for the normal range, which covers
every value the program computes. -/
def flScaled (n d : ℕ) (e : ℤ) : Dbl :=
  if n = 0 then ⟨0, 0⟩
  else
    let p := scale52 1200 n d e
    let m := rne p.1 p.2.1
    if m = 2 ^ 53 then ⟨2 ^ 52, p.2.2 + 1⟩ else ⟨m, p.2.2⟩

/-- The binary64 result of Python's true division `n / d` on nonnegative
integers; also the value of a decimal literal `n * 10^(-k)` via `flDiv n (10^k)`. -/
def flDiv (n d : ℕ) : Dbl := flScaled n d 0

/-- Binary64 multiplication: exact product, then one rounding. -/
def dmul (a b : Dbl) : Dbl := flScaled (a.m * b.m) 1 (a.e + b.e)

/-- Binary64 addition of nonnegative values: exact sum, then one rounding. -/
def dadd (a b : Dbl) : Dbl :=
  if a.e ≤ b.e then flScaled (a.m + b.m * 2 ^ (b.e - a.e).toNat) 1 a.e
  else flScaled (b.m + a.m * 2 ^ (a.e - b.e).toNat) 1 b.e

/-- The number of hundredths in the nonnegative binary64 value `d`, rounding
ties to even: `f"{x:.2f}"` in CPython prints the correctly rounded two-decimal
form of the exact value of the double. -/
def cents (d : Dbl) : ℕ :=
  if 0 ≤ d.e then d.m * 100 * 2 ^ d.e.toNat
  else rne (d.m * 100) (2 ^ (-d.e).toNat)

def pad2 (n : ℕ) : String :=
  if n < 10 then "0" ++ toString n else toString n

/-- Python `f"${cost:.2f}"` for a nonnegative binary64 `cost` (gpt.py line 69). -/
def fmtDollars (d : Dbl) : String :=
  let c := cents d
  "$" ++ toString (c / 100) ++ "." ++ pad2 (c % 100)

/-- The cost computed at gpt.py lines 67-68:
`(prompt_tokens / 1000) * rate[0] + (completion_tokens / 1000) * rate[1]`,
every operation in binary64. -/
def pyCost (p c : ℕ) (r : Dbl × Dbl) : Dbl :=
  dadd (dmul (flDiv p 1000) r.1) (dmul (flDiv c 1000) r.2)

/-- The currency string stored in `self.cost` (gpt.py line 69), as a function
of the cumulative token counters and the active rate pair. -/
def costString (p c : ℕ) (r : Dbl × Dbl) : String :=
  fmtDollars (pyCost p c r)

/-- The Python exceptions the embedded code can raise. -/
inductive PyErr where
  /-- `ValueError` raised by `change_model` (gpt.py 80-81); the spec calls it
  InvalidModel. -/
  | invalidModel
  /-- The generic `Exception` raised when the remote call returns `None`
  (gpt.py 62-64); the spec calls it RemoteCallFailed. -/
  | remoteCallFailed
  /-- `AttributeError` from accessing a missing enum member. -/
  | attributeError
  /-- `IndexError` from indexing an empty `choices` list. -/
  | indexError
  deriving DecidableEq

/-- The `Model` enum (gpt.py 10-26). -/
inductive Model where
  | GPT4
  | GPT4_32K
  | GPT3_5
  deriving DecidableEq

/-- `Model.value`: the tuple each enum member carries.  The float literals
`0.03`, `0.06`, `0.12`, `0.002` denote the binary64 values nearest the
decimals, i.e. `flDiv 3 100` etc. -/
def Model.value : Model → String × Dbl × Dbl
  | .GPT4 => ("gpt-4", flDiv 3 100, flDiv 6 100)
  | .GPT4_32K => ("gpt-4-32k", flDiv 6 100, flDiv 12 100)
  | .GPT3_5 => ("gpt-3.5-turbo", flDiv 2 1000, flDiv 2 1000)

/-- Name lookup on the `Model` enum class: `Model.X` succeeds exactly for the
three declared members. -/
def Model.fromName (n : String) : Option Model :=
  if n = "GPT4" then some .GPT4
  else if n = "GPT4_32K" then some .GPT4_32K
  else if n = "GPT3_5" then some .GPT3_5
  else none

/-- Python attribute access `Model.<n>`: `AttributeError` when `n` is not a
member (Enum metaclass behaviour). -/
def enumGetattr (n : String) : Except PyErr Model :=
  match Model.fromName n with
  | some m => .ok m
  | none => .error .attributeError

/-- An arbitrary Python value passed where a `Model` is expected: either an
actual `Model` member or anything else (for which `isinstance(model, Model)`
is false), tagged by a description string. -/
inductive MRef where
  | valid : Model → MRef
  | invalid : String → MRef
  deriving DecidableEq

/-- One entry of `self.messages` (gpt.py line 55 appends `[prompt, None]`):
a prompt and an optional reply. -/
structure Exchange where
  prompt : String
  reply : Option String
  deriving DecidableEq

/-- The mutable state of a `LazyGPT` object (gpt.py 33-38).  `cost` is
`Option String`: `__init__` leaves it unset (line 47 stores the `str` type
object as a placeholder, modelled as `none`); `response` stores the formatted
currency string. -/
structure Session where
  _model : String
  _rate : Dbl × Dbl
  _system : Option String
  messages : List Exchange
  cost : Option String
  prompt_tokens : ℕ
  completion_tokens : ℕ
  deriving DecidableEq

/-- A message in the outbound list sent to the remote service. -/
structure OutMsg where
  role : String
  content : String
  deriving DecidableEq

/-- Modelled from the spec: the source calls `helpers.compile_messages`
(gpt.py line 56) but the `helpers` module is not part of the provided source.
Per spec section 4.2 step 2 it builds "an optional leading system message (if
system_prompt set) followed by, for every exchange in history, a user-role
message with its prompt and (if reply is set) an assistant-role message with
its reply". -/
def compile_messages (history : List Exchange) (system : Option String) : List OutMsg :=
  (match system with
   | none => []
   | some sys => [⟨"system", sys⟩]) ++
  history.flatMap (fun ex =>
    ⟨"user", ex.prompt⟩ ::
    (match ex.reply with
     | none => []
     | some rep => [⟨"assistant", rep⟩]))

/-- The `usage` field of the remote response. -/
structure ApiUsage where
  prompt_tokens : ℕ
  completion_tokens : ℕ
  deriving DecidableEq

/-- The `message` field of one choice of the remote response. -/
structure ApiChoiceMsg where
  content : String
  deriving DecidableEq

/-- One element of the `choices` field of the remote response. -/
structure ApiChoice where
  message : ApiChoiceMsg
  deriving DecidableEq

/-- The shape of a successful remote response the code reads
(gpt.py 65-70): `usage` and `choices`. -/
structure ApiResponse where
  usage : ApiUsage
  choices : List ApiChoice
  deriving DecidableEq

/-- `self.messages[-1][1] = reply` (gpt.py line 71): set the reply of the
last exchange.  The call site always has a nonempty list. -/
def setLastReply (rep : String) : List Exchange → List Exchange
  | [] => []
  | [ex] => [{ ex with reply := some rep }]
  | ex :: rest => ex :: setLastReply rep rest

namespace LazyGPT

/-- `LazyGPT.__init__` (gpt.py 40-49) with an explicitly supplied `model`
argument: `change_model` runs first (raising for a non-`Model` value before
any field is assigned), then the fields are initialised. -/
def construct (model : MRef) (system : Option String) : Except PyErr Session :=
  match model with
  | .invalid _ => .error .invalidModel
  | .valid m =>
    .ok { _model := m.value.1
          _rate := m.value.2
          _system := system
          messages := []
          cost := none
          prompt_tokens := 0
          completion_tokens := 0 }

/-- `LazyGPT.change_model` (gpt.py 75-84): `ValueError` unless the argument
is a `Model` member; otherwise overwrite `_model` and `_rate` only. -/
def change_model (model : MRef) (s : Session) : Except PyErr Session :=
  match model with
  | .invalid _ => .error .invalidModel
  | .valid m => .ok { s with _model := m.value.1, _rate := m.value.2 }

/-- `LazyGPT.response` (gpt.py 51-73).  `ext` is the external
`openai.ChatCompletion.create` collaborator.  Returns the state the object
holds when the method ends (normally or by raising) together with the
outcome.  The `just_reply` switch only selects the returned value, never the
state, and is omitted. -/
def response (s : Session) (prompt : String)
    (ext : List OutMsg → Option ApiResponse) : Session × Except PyErr String :=
  let s1 := { s with messages := s.messages ++ [⟨prompt, none⟩] }
  match ext (compile_messages s1.messages s1._system) with
  | none => (s1, .error .remoteCallFailed)
  | some resp =>
    let s2 := { s1 with
      prompt_tokens := s1.prompt_tokens + resp.usage.prompt_tokens
      completion_tokens := s1.completion_tokens + resp.usage.completion_tokens }
    let s3 := { s2 with
      cost := some (costString s2.prompt_tokens s2.completion_tokens s2._rate) }
    match resp.choices with
    | [] => (s3, .error .indexError)
    | choice :: _ =>
      ({ s3 with messages := setLastReply choice.message.content s3.messages },
       .ok choice.message.content)

/-- `LazyGPT.get_messages` (gpt.py 86-96): one `{"user": prompt}` and one
`{"assistant": reply}` entry per exchange, in order.  The assistant content
is the stored reply, which may still be the unset marker (`none`). -/
def get_messages (s : Session) : List (String × Option String) :=
  s.messages.flatMap (fun ex => [("user", some ex.prompt), ("assistant", ex.reply)])

end LazyGPT

/-- The default-argument expression `Model.GPT_3` of `__init__`
(gpt.py line 40), evaluated as an attribute access on the enum class. -/
def initDefaultModelExpr : Except PyErr Model := enumGetattr "GPT_3"

/-- Executing the `LazyGPT` class body: Python evaluates the default
arguments of `def __init__` at class-definition time, so the class definition
itself propagates whatever evaluating `Model.GPT_3` produces. -/
def lazyGPTClassDef : Except PyErr Unit := do
  let _ ← initDefaultModelExpr
  return ()

/-- Calling the constructor without an explicit `model` argument: first the
default expression must produce a value, then `construct` runs on it. -/
def constructDefault (system : Option String) : Except PyErr Session := do
  let m ← initDefaultModelExpr
  LazyGPT.construct (.valid m) system

/-- Iterate `response` over a list of calls, the `k`-th with prompt
`(calls k).1` and a remote collaborator that returns `(calls k).2`. -/
def runCalls (s : Session) (calls : List (String × ApiResponse)) : Session :=
  calls.foldl (fun st c => (LazyGPT.response st c.1 (fun _ => some c.2)).1) s

/-! ## Helper lemmas -/

theorem setLastReply_append (rep : String) (l : List Exchange) (ex : Exchange) :
    setLastReply rep (l ++ [ex]) = l ++ [{ ex with reply := some rep }] := by
  induction l with
  | nil => rfl
  | cons a l ih =>
    cases l with
    | nil => rfl
    | cons b l' =>
      show a :: setLastReply rep ((b :: l') ++ [ex]) = _
      rw [ih]
      rfl

/-- What `response` does when the remote call returns `None`. -/
theorem response_none_eq (s : Session) (p : String)
    (ext : List OutMsg → Option ApiResponse)
    (hext : ext (compile_messages (s.messages ++ [⟨p, none⟩]) s._system) = none) :
    LazyGPT.response s p ext =
      ({ s with messages := s.messages ++ [⟨p, none⟩] }, .error .remoteCallFailed) := by
  unfold LazyGPT.response
  simp only []
  rw [hext]

/-- What `response` does when the remote call returns a result whose
`choices` list is empty. -/
theorem response_empty_choices_eq (s : Session) (p : String)
    (ext : List OutMsg → Option ApiResponse) (r : ApiResponse)
    (hext : ext (compile_messages (s.messages ++ [⟨p, none⟩]) s._system) = some r)
    (hch : r.choices = []) :
    LazyGPT.response s p ext =
      ({ s with
          messages := s.messages ++ [⟨p, none⟩]
          prompt_tokens := s.prompt_tokens + r.usage.prompt_tokens
          completion_tokens := s.completion_tokens + r.usage.completion_tokens
          cost := some (costString (s.prompt_tokens + r.usage.prompt_tokens)
            (s.completion_tokens + r.usage.completion_tokens) s._rate) },
       .error .indexError) := by
  unfold LazyGPT.response
  simp only []
  rw [hext]
  simp only [hch]

/-- What `response` does when the remote call returns a result with at least
one choice: the successful path. -/
theorem response_ok_eq (s : Session) (p : String)
    (ext : List OutMsg → Option ApiResponse) (r : ApiResponse)
    (ch : ApiChoice) (rest : List ApiChoice)
    (hext : ext (compile_messages (s.messages ++ [⟨p, none⟩]) s._system) = some r)
    (hch : r.choices = ch :: rest) :
    LazyGPT.response s p ext =
      ({ s with
          messages := s.messages ++ [⟨p, some ch.message.content⟩]
          prompt_tokens := s.prompt_tokens + r.usage.prompt_tokens
          completion_tokens := s.completion_tokens + r.usage.completion_tokens
          cost := some (costString (s.prompt_tokens + r.usage.prompt_tokens)
            (s.completion_tokens + r.usage.completion_tokens) s._rate) },
       .ok ch.message.content) := by
  unfold LazyGPT.response
  simp only []
  rw [hext]
  simp only [hch, setLastReply_append]

/-! ## Concrete sessions and responses used by witnesses -/

/-- The session `construct(Model.GPT4)` produces. -/
def sC1 : Session :=
  { _model := "gpt-4", _rate := (flDiv 3 100, flDiv 6 100), _system := none,
    messages := [], cost := none, prompt_tokens := 0, completion_tokens := 0 }

/-- A remote response reporting 1500 prompt units and 500 completion units. -/
def respC1 : ApiResponse :=
  { usage := { prompt_tokens := 1500, completion_tokens := 500 },
    choices := [{ message := { content := "ok" } }] }

/-! ## Claim theorems -/

/-- C1 counterexample: running `response` on a fresh GPT4 session
(rates 0.03 and 0.06) with reported usage of 1500 prompt units and 500
completion units leaves `cost = "$0.07"`, not the `"$0.08"` the claim
states: the binary64 value of `1.5 * 0.03 + 0.5 * 0.06` is just below
`0.075`, so two-decimal formatting rounds down. -/
theorem c1_cost_example_refuted :
    (LazyGPT.response sC1 "q" (fun _ => some respC1)).1.cost = some "$0.07" ∧
    ¬ (LazyGPT.response sC1 "q" (fun _ => some respC1)).1.cost = some "$0.08" := by
  constructor <;> decide

/-- C1 (amended): after every respond call whose remote call returns a
result, `cost` equals `costString` applied to the updated cumulative unit
counters and the active rate pair — a pure function of those three values,
every arithmetic operation evaluated in binary64 — and at
`prompt_units = 1500`, `completion_units = 500` with rates `(0.03, 0.06)`
that function yields the string `"$0.07"`. -/
theorem c1_cost_formula (s : Session) (p : String)
    (ext : List OutMsg → Option ApiResponse) (r : ApiResponse)
    (hext : ext (compile_messages (s.messages ++ [⟨p, none⟩]) s._system) = some r) :
    (LazyGPT.response s p ext).1.cost
      = some (costString (s.prompt_tokens + r.usage.prompt_tokens)
          (s.completion_tokens + r.usage.completion_tokens) s._rate) ∧
    costString 1500 500 (flDiv 3 100, flDiv 6 100) = "$0.07" := by
  constructor
  · cases hch : r.choices with
    | nil => rw [response_empty_choices_eq s p ext r hext hch]
    | cons ch rest => rw [response_ok_eq s p ext r ch rest hext hch]
  · decide

/-- Witness for `c1_cost_formula` at the concrete GPT4 session and usage. -/
theorem c1_cost_formula_witness :
    (LazyGPT.response sC1 "q" (fun _ => some respC1)).1.cost
      = some (costString 1500 500 (flDiv 3 100, flDiv 6 100)) ∧
    costString 1500 500 (flDiv 3 100, flDiv 6 100) = "$0.07" := by
  have h := c1_cost_formula sC1 "q" (fun _ => some respC1) respC1 rfl
  simpa [sC1, respC1] using h

/-- C3: `response` fails with RemoteCallFailed exactly when the external
call yields no result, and in that case the pending exchange appended at
the start of the call remains in history with its reply unset; the failure
is surfaced as the immediate outcome of the single external call, with no
retry. -/
theorem c3_remote_call_failed (s : Session) (p : String)
    (ext : List OutMsg → Option ApiResponse) :
    ((LazyGPT.response s p ext).2 = .error .remoteCallFailed ↔
      ext (compile_messages (s.messages ++ [⟨p, none⟩]) s._system) = none) ∧
    (ext (compile_messages (s.messages ++ [⟨p, none⟩]) s._system) = none →
      (LazyGPT.response s p ext).1.messages = s.messages ++ [⟨p, none⟩]) := by
  cases hext : ext (compile_messages (s.messages ++ [⟨p, none⟩]) s._system) with
  | none =>
    rw [response_none_eq s p ext hext]
    exact ⟨by simp, fun _ => rfl⟩
  | some r =>
    refine ⟨?_, fun hc => by simp at hc⟩
    cases hch : r.choices with
    | nil =>
      rw [response_empty_choices_eq s p ext r hext hch]
      simp
    | cons ch rest =>
      rw [response_ok_eq s p ext r ch rest hext hch]
      simp

/-- A session mid-conversation, used as a witness state. -/
def sW3 : Session :=
  { _model := "gpt-4", _rate := (flDiv 3 100, flDiv 6 100), _system := some "sys",
    messages := [⟨"a", some "b"⟩], cost := some "$0.00",
    prompt_tokens := 7, completion_tokens := 3 }

/-- Witness for `c3_remote_call_failed` with a collaborator that returns
no result. -/
theorem c3_remote_call_failed_witness :
    ((LazyGPT.response sW3 "p" (fun _ => none)).2 = .error .remoteCallFailed ↔
      (fun _ => none : List OutMsg → Option ApiResponse)
        (compile_messages (sW3.messages ++ [⟨"p", none⟩]) sW3._system) = none) ∧
    ((fun _ => none : List OutMsg → Option ApiResponse)
        (compile_messages (sW3.messages ++ [⟨"p", none⟩]) sW3._system) = none →
      (LazyGPT.response sW3 "p" (fun _ => none)).1.messages
        = sW3.messages ++ [⟨"p", none⟩]) :=
  c3_remote_call_failed sW3 "p" (fun _ => none)

/-- C10: when `response` fails with RemoteCallFailed, the counters and the
cost are exactly as they were before the call — the error is raised before
any counter or cost update — so the appended pending exchange is the only
state change the failed call makes. -/
theorem c10_failed_respond_frame (s : Session) (p : String)
    (ext : List OutMsg → Option ApiResponse)
    (h : (LazyGPT.response s p ext).2 = .error .remoteCallFailed) :
    (LazyGPT.response s p ext).1 = { s with messages := s.messages ++ [⟨p, none⟩] } ∧
    (LazyGPT.response s p ext).1.prompt_tokens = s.prompt_tokens ∧
    (LazyGPT.response s p ext).1.completion_tokens = s.completion_tokens ∧
    (LazyGPT.response s p ext).1.cost = s.cost := by
  cases hext : ext (compile_messages (s.messages ++ [⟨p, none⟩]) s._system) with
  | none =>
    rw [response_none_eq s p ext hext]
    exact ⟨rfl, rfl, rfl, rfl⟩
  | some r =>
    exfalso
    cases hch : r.choices with
    | nil =>
      rw [response_empty_choices_eq s p ext r hext hch] at h
      simp at h
    | cons ch rest =>
      rw [response_ok_eq s p ext r ch rest hext hch] at h
      simp at h

/-- A session mid-conversation, used as a witness state. -/
def sW10 : Session :=
  { _model := "gpt-4-32k", _rate := (flDiv 6 100, flDiv 12 100), _system := none,
    messages := [⟨"q1", some "r1"⟩], cost := some "$0.01",
    prompt_tokens := 11, completion_tokens := 4 }

/-- Witness for `c10_failed_respond_frame` on a concrete failing call. -/
theorem c10_failed_respond_frame_witness :
    (LazyGPT.response sW10 "p" (fun _ => none)).1
      = { sW10 with messages := sW10.messages ++ [⟨"p", none⟩] } ∧
    (LazyGPT.response sW10 "p" (fun _ => none)).1.prompt_tokens = sW10.prompt_tokens ∧
    (LazyGPT.response sW10 "p" (fun _ => none)).1.completion_tokens
      = sW10.completion_tokens ∧
    (LazyGPT.response sW10 "p" (fun _ => none)).1.cost = sW10.cost :=
  c10_failed_respond_frame sW10 "p" (fun _ => none) rfl

/-- C4: for every input, `construct` fails with InvalidModel if the model
argument is not a `Model` member (whatever other value it is), and for
every member it initialises the session with an empty history and both
cumulative unit counters equal to zero. -/
theorem c4_construct_validation (x : String) (m : Model) (sys : Option String) :
    LazyGPT.construct (.invalid x) sys = .error .invalidModel ∧
    ∃ s, LazyGPT.construct (.valid m) sys = .ok s ∧
      s.messages = [] ∧ s.prompt_tokens = 0 ∧ s.completion_tokens = 0 :=
  ⟨rfl, ⟨_, rfl, rfl, rfl, rfl⟩⟩

/-- C5: `response` consults the external collaborator only at the outbound
list it builds, and that list is an optional leading system message
(present iff `_system` is set), followed by, for each exchange in history
order, a user message with its prompt and — only if its reply is set — an
assistant message with that reply; the freshly appended pending exchange
contributes exactly the one trailing user message and no assistant message. -/
theorem c5_outbound_messages (s : Session) (p : String)
    (ext : List OutMsg → Option ApiResponse) :
    LazyGPT.response s p ext
      = LazyGPT.response s p
          (fun _ => ext (compile_messages (s.messages ++ [⟨p, none⟩]) s._system)) ∧
    compile_messages (s.messages ++ [⟨p, none⟩]) s._system =
      (match s._system with
       | none => []
       | some sys => [(⟨"system", sys⟩ : OutMsg)]) ++
      (s.messages.flatMap (fun ex =>
        ⟨"user", ex.prompt⟩ ::
        (match ex.reply with
         | none => []
         | some rep => [⟨"assistant", rep⟩])) ++
      [⟨"user", p⟩]) := by
  refine ⟨rfl, ?_⟩
  simp [compile_messages, List.flatMap_append]

/-- C6: for every valid model reference, `change_model` replaces the active
model identifier and rate pair and changes nothing else: history, both
counters, the stored cost and the system prompt are unchanged. -/
theorem c6_set_model_frame (m : Model) (s : Session) :
    ∃ s', LazyGPT.change_model (.valid m) s = .ok s' ∧
      s'._model = m.value.1 ∧ s'._rate = m.value.2 ∧
      s'.messages = s.messages ∧
      s'.prompt_tokens = s.prompt_tokens ∧
      s'.completion_tokens = s.completion_tokens ∧
      s'.cost = s.cost ∧
      s'._system = s._system :=
  ⟨_, rfl, rfl, rfl, rfl, rfl, rfl, rfl, rfl⟩

/-- C8: constructing a session with a valid model and then calling
`change_model` with the same model returns the very same state, so in
particular the active model identifier and rate pair are untouched. -/
theorem c8_construct_then_set_model (m : Model) (sys : Option String) (s : Session)
    (hs : LazyGPT.construct (.valid m) sys = .ok s) :
    LazyGPT.change_model (.valid m) s = .ok s ∧
    ∃ s', LazyGPT.change_model (.valid m) s = .ok s' ∧
      s'._model = s._model ∧ s'._rate = s._rate := by
  have h : ({ _model := m.value.1, _rate := m.value.2, _system := sys,
                messages := [], cost := none, prompt_tokens := 0,
                completion_tokens := 0 } : Session) = s := by
    injection hs
  subst h
  exact ⟨rfl, ⟨_, rfl, rfl, rfl⟩⟩

/-- The session `construct(Model.GPT3_5, "be brief")` produces. -/
def sW8 : Session :=
  { _model := "gpt-3.5-turbo", _rate := (flDiv 2 1000, flDiv 2 1000),
    _system := some "be brief", messages := [], cost := none,
    prompt_tokens := 0, completion_tokens := 0 }

/-- Witness for `c8_construct_then_set_model` at GPT3_5. -/
theorem c8_construct_then_set_model_witness :
    LazyGPT.change_model (.valid .GPT3_5) sW8 = .ok sW8 ∧
    ∃ s', LazyGPT.change_model (.valid .GPT3_5) sW8 = .ok s' ∧
      s'._model = sW8._model ∧ s'._rate = sW8._rate :=
  c8_construct_then_set_model .GPT3_5 (some "be brief") sW8 rfl

/-- C9: the constructor's default argument names `Model.GPT_3`, which is not
a member of the enum (its members are exactly GPT4, GPT4_32K and GPT3_5);
evaluating that expression raises AttributeError, Python evaluates default
arguments when the class body executes so the `LazyGPT` class definition
itself fails to load, and constructing a session without explicitly passing
a model can never succeed. -/
theorem c9_missing_default_member :
    Model.fromName "GPT_3" = none ∧
    Model.fromName "GPT4" = some .GPT4 ∧
    Model.fromName "GPT4_32K" = some .GPT4_32K ∧
    Model.fromName "GPT3_5" = some .GPT3_5 ∧
    initDefaultModelExpr = .error .attributeError ∧
    lazyGPTClassDef = .error .attributeError ∧
    ∀ sys, constructDefault sys = .error .attributeError :=
  ⟨by decide, by decide, by decide, by decide, rfl, rfl, fun _ => rfl⟩

theorem transcript_length (l : List Exchange) :
    (l.flatMap fun ex => [("user", some ex.prompt), ("assistant", ex.reply)]).length
      = 2 * l.length := by
  induction l with
  | nil => rfl
  | cons ex tl ih =>
    simp only [List.flatMap_cons, List.length_append, List.length_cons, ih]
    simp
    omega

theorem transcript_get (l : List Exchange) :
    ∀ (k : ℕ) (hk : k < l.length),
      (l.flatMap fun ex => [("user", some ex.prompt), ("assistant", ex.reply)])[2*k]?
        = some ("user", some (l.get ⟨k, hk⟩).prompt) ∧
      (l.flatMap fun ex => [("user", some ex.prompt), ("assistant", ex.reply)])[2*k+1]?
        = some ("assistant", (l.get ⟨k, hk⟩).reply) := by
  induction l with
  | nil => intro k hk; exact absurd hk (by simp)
  | cons ex tl ih =>
    intro k hk
    cases k with
    | zero =>
      refine ⟨rfl, ?_⟩
      simp [List.flatMap_cons]
    | succ k =>
      have h2 : 2 * (k + 1) = (2 * k + 1) + 1 := by ring
      rw [h2]
      have hk' : k < tl.length := Nat.lt_of_succ_lt_succ hk
      have := ih k hk'
      simpa [List.flatMap_cons, List.getElem?_cons_succ] using this

/-- C7: `get_messages` returns a flat sequence of exactly twice as many
role-tagged entries as there are exchanges, alternating user then assistant
per exchange in history order (so starting with user), and an exchange whose
reply is unset still yields an assistant entry whose content is the unset
marker.  It is a pure function of the state: it mutates nothing. -/
theorem c7_get_transcript (s : Session) :
    (LazyGPT.get_messages s).length = 2 * s.messages.length ∧
    ∀ (k : ℕ) (hk : k < s.messages.length),
      (LazyGPT.get_messages s)[2*k]?
        = some ("user", some (s.messages.get ⟨k, hk⟩).prompt) ∧
      (LazyGPT.get_messages s)[2*k+1]?
        = some ("assistant", (s.messages.get ⟨k, hk⟩).reply) :=
  ⟨transcript_length s.messages, transcript_get s.messages⟩

/-- A session whose single exchange still has its reply unset. -/
def sW7 : Session :=
  { _model := "gpt-4", _rate := (flDiv 3 100, flDiv 6 100), _system := none,
    messages := [⟨"hi", none⟩], cost := none,
    prompt_tokens := 0, completion_tokens := 0 }

/-- Witness for `c7_get_transcript` on a session holding one unanswered
exchange. -/
theorem c7_get_transcript_witness :
    (LazyGPT.get_messages sW7).length = 2 * sW7.messages.length ∧
    (LazyGPT.get_messages sW7)[0]? = some ("user", some "hi") ∧
    (LazyGPT.get_messages sW7)[1]? = some ("assistant", none) := by
  have h := c7_get_transcript sW7
  have hk : (0:ℕ) < sW7.messages.length := by decide
  have h2 := h.2 0 hk
  refine ⟨h.1, ?_, ?_⟩
  · simpa [sW7] using h2.1
  · simpa [sW7] using h2.2

theorem runCalls_cons (s : Session) (c : String × ApiResponse)
    (cs : List (String × ApiResponse)) :
    runCalls s (c :: cs) = runCalls ((LazyGPT.response s c.1 fun _ => some c.2).1) cs :=
  rfl

theorem runCalls_invariant (calls : List (String × ApiResponse)) :
    ∀ s : Session, (∀ c ∈ calls, c.2.choices ≠ []) →
      (runCalls s calls).messages.length = s.messages.length + calls.length ∧
      ((∀ ex ∈ s.messages, ex.reply.isSome) →
        ∀ ex ∈ (runCalls s calls).messages, ex.reply.isSome) ∧
      (runCalls s calls).prompt_tokens
        = s.prompt_tokens + (calls.map fun c => c.2.usage.prompt_tokens).sum ∧
      (runCalls s calls).completion_tokens
        = s.completion_tokens + (calls.map fun c => c.2.usage.completion_tokens).sum := by
  induction calls with
  | nil => intro s _; simp [runCalls]
  | cons c cs ih =>
    intro s h
    obtain ⟨ch, rest, hch⟩ : ∃ ch rest, c.2.choices = ch :: rest := by
      cases hc : c.2.choices with
      | nil => exact absurd hc (h c (List.mem_cons_self c cs))
      | cons x xs => exact ⟨x, xs, rfl⟩
    have hstep : (LazyGPT.response s c.1 fun _ => some c.2).1
        = { s with
              messages := s.messages ++ [⟨c.1, some ch.message.content⟩],
              prompt_tokens := s.prompt_tokens + c.2.usage.prompt_tokens,
              completion_tokens := s.completion_tokens + c.2.usage.completion_tokens,
              cost := some (costString (s.prompt_tokens + c.2.usage.prompt_tokens)
                (s.completion_tokens + c.2.usage.completion_tokens) s._rate) } :=
      congrArg Prod.fst (response_ok_eq s c.1 (fun _ => some c.2) c.2 ch rest rfl hch)
    rw [runCalls_cons, hstep]
    obtain ⟨hlen, hrep, hpt, hct⟩ := ih _ (fun c' hc' => h c' (List.mem_cons_of_mem c hc'))
    refine ⟨?_, ?_, ?_, ?_⟩
    · rw [hlen]
      simp
      omega
    · intro hall ex hex
      refine hrep ?_ ex hex
      intro e he
      simp only [List.mem_append, List.mem_singleton] at he
      cases he with
      | inl hmem => exact hall e hmem
      | inr hnew => rw [hnew]; rfl
    · rw [hpt]
      simp
      omega
    · rw [hct]
      simp
      omega

/-- C2: after any sequence of `N` successful respond calls on a freshly
constructed session, the history contains exactly `N` exchanges, every
exchange has its reply set, and each cumulative counter equals the sum over
the `N` calls of the corresponding unit count reported in the external
service's usage field. -/
theorem c2_respond_sequence (m : Model) (sys : Option String) (s0 : Session)
    (hs : LazyGPT.construct (.valid m) sys = .ok s0)
    (calls : List (String × ApiResponse))
    (hok : ∀ c ∈ calls, c.2.choices ≠ []) :
    (runCalls s0 calls).messages.length = calls.length ∧
    (∀ ex ∈ (runCalls s0 calls).messages, ex.reply.isSome) ∧
    (runCalls s0 calls).prompt_tokens
      = (calls.map fun c => c.2.usage.prompt_tokens).sum ∧
    (runCalls s0 calls).completion_tokens
      = (calls.map fun c => c.2.usage.completion_tokens).sum := by
  have h0 : ({ _model := m.value.1, _rate := m.value.2, _system := sys,
                 messages := [], cost := none, prompt_tokens := 0,
                 completion_tokens := 0 } : Session) = s0 := by
    injection hs
  obtain ⟨hlen, hrep, hpt, hct⟩ := runCalls_invariant calls s0 hok
  have hm : s0.messages = [] := by rw [← h0]
  have hp : s0.prompt_tokens = 0 := by rw [← h0]
  have hc : s0.completion_tokens = 0 := by rw [← h0]
  refine ⟨?_, hrep (by simp [hm]), ?_, ?_⟩
  · rw [hlen, hm]
    simp
  · rw [hpt, hp]
    simp
  · rw [hct, hc]
    simp

/-- A freshly constructed GPT3_5 session. -/
def sW2 : Session :=
  { _model := "gpt-3.5-turbo", _rate := (flDiv 2 1000, flDiv 2 1000),
    _system := none, messages := [], cost := none,
    prompt_tokens := 0, completion_tokens := 0 }

/-- The spec scenario response: usage 10 prompt and 5 completion units,
reply "hello". -/
def respW2 : ApiResponse :=
  { usage := { prompt_tokens := 10, completion_tokens := 5 },
    choices := [{ message := { content := "hello" } }] }

/-- Witness for `c2_respond_sequence` on one successful call. -/
theorem c2_respond_sequence_witness :
    (runCalls sW2 [("hi", respW2)]).messages.length = 1 ∧
    (∀ ex ∈ (runCalls sW2 [("hi", respW2)]).messages, ex.reply.isSome) ∧
    (runCalls sW2 [("hi", respW2)]).prompt_tokens = 10 ∧
    (runCalls sW2 [("hi", respW2)]).completion_tokens = 5 := by
  have h := c2_respond_sequence .GPT3_5 none sW2 rfl [("hi", respW2)] (by decide)
  simpa [respW2] using h
